import Mathlib

/-!
Verification development for the `testsprite_tests` Playwright scripts of the
Interview-Replay-App repository.  The nine scripts (`TC001` … `TC017`) are
shallowly embedded: every locator-based interaction of each script's
`run_test` is transcribed, in program order, into a table of `ElemUse`
records, and the shared `try`/`finally` control-flow skeleton of `run_test`
is embedded as an executable function over an oracle that decides the
outcome of each awaited primitive.
-/

namespace InterviewReplay

/-- A single locator strategy as written in the scripts: an absolute XPath
(`frame.locator('xpath=…')`), a visible-text selector
(`frame.locator('text=…')`), or a CSS/tag selector (`frame.locator('h1')`). -/
inductive Strategy
  | xpath (p : String)
  | textEq (s : String)
  | css (s : String)
deriving DecidableEq, Repr

/-- Semantic strategies identify an element by user-visible content. -/
def Strategy.isSemantic : Strategy → Bool
  | .textEq _ => true
  | _ => false

/-- Structural strategies identify an element by its position in the markup. -/
def Strategy.isStructural : Strategy → Bool
  | .xpath _ => true
  | .css _ => true
  | .textEq _ => false

/-- How a multi-match locator is narrowed: `.nth(0)`/`.first` take the first
match in document order; `.count()` queries the whole match set. -/
inductive Selection
  | first
  | countAll
deriving DecidableEq, Repr

/-- What the script does with the located element. -/
inductive UseKind
  | click
  | fill (value : String)
  | visibleAssert
  | countCheck
deriving DecidableEq, Repr

/-- Element-targeted actions are the clicks and fills. -/
def UseKind.isAct : UseKind → Bool
  | .click => true
  | .fill _ => true
  | _ => false

def UseKind.isCount : UseKind → Bool
  | .countCheck => true
  | _ => false

def UseKind.isVis : UseKind → Bool
  | .visibleAssert => true
  | _ => false

/-- One locator-based interaction of a script: the strategy list of its
descriptor, the match selection, the use kind, the explicit wait issued
immediately before the awaited action (`await page.wait_for_timeout(3000);`
on the same source line), and the timeout applied to the action itself. -/
structure ElemUse where
  strategies : List Strategy
  sel : Selection
  kind : UseKind
  preWaitMs : Nat
  timeoutMs : Nat
deriving DecidableEq, Repr

/-- Embeds `elem = frame.locator('xpath=p').nth(0)` followed by
`await page.wait_for_timeout(3000); await elem.click(timeout=5000)`. -/
def clickX (p : String) : ElemUse :=
  ⟨[Strategy.xpath p], Selection.first, UseKind.click, 3000, 5000⟩

/-- Embeds `elem = frame.locator('xpath=p').nth(0)` followed by
`await page.wait_for_timeout(3000); await elem.fill(v)`; the fill uses the
context default timeout of 5000 ms set by `context.set_default_timeout`. -/
def fillX (p v : String) : ElemUse :=
  ⟨[Strategy.xpath p], Selection.first, UseKind.fill v, 3000, 5000⟩

/-- Embeds `await expect(frame.locator('text=s').first).to_be_visible(timeout=t)`. -/
def assertTextVis (s : String) (t : Nat) : ElemUse :=
  ⟨[Strategy.textEq s], Selection.first, UseKind.visibleAssert, 0, t⟩

/-- Embeds `await frame.locator(sel).count()`: an existence check over the
whole match set, with the context default timeout. -/
def countQuery (st : Strategy) : ElemUse :=
  ⟨[st], Selection.countAll, UseKind.countCheck, 0, 5000⟩

/-- One test script: its name and the locator-based interactions of its
`run_test` body, in program order. -/
structure Scenario where
  name : String
  uses : List ElemUse
deriving DecidableEq, Repr

/-- XPath of the header `Sign In` button shared by most scripts. -/
def pSignInHeader : String := "html/body/div[2]/header/div/a/button"

/-- XPath of the sign-in/sign-up email input. -/
def pEmailInput : String := "html/body/div[2]/main/div/div/div[2]/div/form/div/input"

/-- XPath of the sign-in/sign-up password input. -/
def pPasswordInput : String := "html/body/div[2]/main/div/div/div[2]/div/form/div[2]/input"

/-- XPath of the sign-in/sign-up submit button. -/
def pFormSubmit : String := "html/body/div[2]/main/div/div/div[2]/div/form/button"

/-- The account email used throughout the suite. -/
def acctEmail : String := "mrwaywithwords@gmail.com"

/-- The account password used throughout the suite. -/
def acctPassword : String := "narte4-Kyqdis-coqkij"

/-- TC001_User_signup_with_valid_email_and_password.py. -/
def tc001 : Scenario :=
  ⟨"TC001",
   [clickX "html/body/div[2]/main/div/div[2]/div[2]/a/button",
    clickX "html/body/div[2]/main/div/div/div[2]/div/div/a",
    fillX pEmailInput acctEmail,
    fillX pPasswordInput acctPassword,
    fillX "html/body/div[2]/main/div/div/div[2]/div/form/div[3]/input" acctPassword,
    clickX pFormSubmit,
    clickX "html/body/div[2]/main/div/div/div/div/div[2]/a/button",
    fillX pEmailInput acctEmail,
    fillX pPasswordInput acctPassword,
    clickX pFormSubmit,
    assertTextVis acctEmail 30000,
    assertTextVis "Sign Out" 30000,
    assertTextVis "Review and analyze your recorded sessions to sharpen your performance." 30000,
    assertTextVis "Sessions This Week" 30000,
    assertTextVis "2" 30000,
    assertTextVis "Total Minutes Practiced" 30000,
    assertTextVis "0" 30000,
    assertTextVis "Top Session Type" 30000,
    assertTextVis "Interview" 30000]⟩

/-- TC004_Create_a_new_interview_session_with_audio_recording.py. -/
def tc004 : Scenario :=
  ⟨"TC004",
   [clickX pSignInHeader,
    fillX pEmailInput acctEmail,
    fillX pPasswordInput acctPassword,
    clickX pFormSubmit,
    clickX "html/body/div[2]/main/div/div/div[2]/a/button",
    fillX "html/body/div[2]/main/div/div[2]/div/form/div/input" "Interview Session with Audio Recording",
    clickX "html/body/div[2]/main/div/div[2]/div/form/div[2]/div/button",
    clickX "html/body/div[3]/div/div/div",
    clickX "html/body/div[2]/main/div/div[2]/div/form/div[2]/div[2]/button",
    clickX "html/body/div[3]/div/div/div",
    clickX "html/body/div[2]/main/div/div[2]/div/form/div[3]/div/button",
    clickX "html/body/div[3]/div/div/div",
    clickX "html/body/div[2]/main/div/div[2]/div/form/div[5]/button[2]",
    assertTextVis "Recording Started Successfully" 30000]⟩

/-- TC005_Create_a_new_trading_session_with_video_recording.py. -/
def tc005 : Scenario :=
  ⟨"TC005",
   [clickX pSignInHeader,
    fillX pEmailInput acctEmail,
    fillX pPasswordInput acctPassword,
    clickX pFormSubmit,
    clickX "html/body/div[2]/main/div/div/div[2]/a/button",
    fillX pEmailInput acctEmail,
    fillX pPasswordInput acctPassword,
    clickX pFormSubmit,
    clickX "html/body/div[2]/main/div/div/div[2]/a/button",
    fillX "html/body/div[2]/main/div/div[2]/div/form/div/input" "Trading Session 1",
    clickX "html/body/div[2]/main/div/div[2]/div/form/div[2]/div/button",
    clickX "html/body/div[3]/div/div/div[2]",
    clickX "html/body/div[2]/main/div/div[2]/div/form/div[2]/div[2]/button",
    clickX "html/body/div[3]/div/div/div[2]",
    clickX "html/body/div[2]/main/div/div[2]/div/form/div[3]/div/button",
    assertTextVis "Recording session failed to start" 1000]⟩

/-- Transcript text first pasted by TC010. -/
def transcriptText : String :=
  "This is a test transcript. We will paste this text and then edit it manually to validate the editor functionality."

/-- Transcript text after the manual edit in TC010/TC011. -/
def transcriptEdited : String :=
  "This is a test transcript. We will paste this text and then edit it manually to validate the editor functionality. Adding an extra sentence to test manual editing."

/-- TC010_Manual_transcript_editing_with_search_and_highlighting.py. -/
def tc010 : Scenario :=
  ⟨"TC010",
   [clickX pSignInHeader,
    fillX pEmailInput acctEmail,
    fillX pPasswordInput acctPassword,
    clickX pFormSubmit,
    clickX "html/body/div[2]/main/div/div[3]/div[2]/a[2]",
    fillX pEmailInput acctEmail,
    fillX pPasswordInput acctPassword,
    clickX pFormSubmit,
    clickX "html/body/div[2]/main/div/div[3]/div[2]/a[2]",
    fillX "html/body/div[2]/main/div/div[2]/div/div[2]/div[2]/div/div[2]/div/div/textarea" transcriptText,
    fillX "html/body/div[2]/main/div/div[2]/div/div[2]/div[2]/div/div[2]/div/div/textarea" transcriptEdited,
    clickX "html/body/div[2]/main/div/div[2]/div/div[2]/div[2]/div/div[2]/div/div/div/button",
    fillX "html/body/div[2]/main/div/div[2]/div/div[2]/div[2]/div/div[2]/div/div[2]/div/div/input" "validate",
    clickX "html/body/div[2]/main/div/div[2]/div/div[2]/div[2]/div/div[2]/div/div[2]/div/div/div/button",
    fillX pEmailInput acctEmail,
    fillX pPasswordInput acctPassword,
    clickX pFormSubmit,
    assertTextVis transcriptEdited 30000,
    assertTextVis "validate" 30000]⟩

/-- TC011_Queue_AI_job_for_transcription_and_verify_result.py. -/
def tc011 : Scenario :=
  ⟨"TC011",
   [clickX pSignInHeader,
    fillX pEmailInput acctEmail,
    fillX pPasswordInput acctPassword,
    clickX pFormSubmit,
    clickX "html/body/div[2]/main/div/div[3]/div[2]/a[2]",
    fillX pEmailInput acctEmail,
    fillX pPasswordInput acctPassword,
    clickX pFormSubmit,
    clickX "html/body/div[2]/main/div/div[3]/div[2]/a[2]",
    clickX "html/body/div[2]/main/div/div[2]/div[2]/div/div[2]/div/div/button",
    fillX pEmailInput acctEmail,
    fillX pPasswordInput acctPassword,
    clickX pFormSubmit,
    clickX "html/body/div[2]/main/div/div[3]/div[2]/a[2]",
    clickX "html/body/div[2]/main/div/div[2]/div[2]/div/div[2]/div/div[2]/div[2]/div/div/div[2]/button",
    fillX "html/body/div[2]/main/div/div[2]/div/div[2]/div[2]/div/div[2]/div/div/textarea" transcriptEdited,
    clickX "html/body/div[2]/main/div/div[2]/div/div[2]/div[2]/div/div[2]/div/div[2]/div/div/input",
    assertTextVis "Transcription job completed successfully" 1000]⟩

/-- TC012_AI_job_error_handling_and_retry.py. -/
def tc012 : Scenario :=
  ⟨"TC012",
   [clickX pSignInHeader,
    fillX pEmailInput acctEmail,
    fillX pPasswordInput acctPassword,
    clickX pFormSubmit,
    clickX "html/body/div[2]/main/div/div[3]/div[2]/a",
    fillX pEmailInput acctEmail,
    fillX pPasswordInput acctPassword,
    clickX pFormSubmit,
    clickX "html/body/div[2]/main/div/div[3]/div[2]/a",
    clickX "html/body/div[2]/main/div/div[2]/div[2]/div/div[2]/div/div/button",
    clickX "html/body/div[2]/main/div/div[2]/div[2]/div/div[2]/div/div[2]/div[2]/div/div/div[2]/button",
    clickX "html/body/div[2]/main/div/div[2]/div[2]/div/div[3]/div[2]/div/div/div[2]/button",
    assertTextVis "AI job completed successfully" 1000]⟩

/-- TC015_Verify_Row_Level_Security_enforces_data_privacy.py.  The `h1`
count query is the RLS check of lines 88-91; the `Invalid login credentials`
count query is the diagnostic check inside the final except branch. -/
def tc015 : Scenario :=
  ⟨"TC015",
   [clickX pSignInHeader,
    fillX pEmailInput acctEmail,
    fillX pPasswordInput acctPassword,
    clickX pFormSubmit,
    countQuery (Strategy.css "h1"),
    fillX pEmailInput "USER_B_EMAIL@example.com",
    fillX pPasswordInput "USER_B_PASSWORD",
    clickX pFormSubmit,
    assertTextVis "Your Sessions" 5000,
    countQuery (Strategy.textEq "Invalid login credentials")]⟩

/-- TC016_Company_and_symbol_management_functionality.py. -/
def tc016 : Scenario :=
  ⟨"TC016",
   [clickX pSignInHeader,
    fillX pEmailInput acctEmail,
    fillX pPasswordInput acctPassword,
    clickX pFormSubmit,
    clickX "html/body/div[2]/main/div/div[3]/div/div[2]/button[3]",
    clickX "html/body/div[3]/div/div/div",
    clickX "html/body/div[2]/header/a",
    clickX pSignInHeader,
    fillX pEmailInput acctEmail,
    fillX pPasswordInput acctPassword,
    clickX pFormSubmit,
    clickX "html/body/div[2]/header/a",
    clickX pSignInHeader,
    fillX pEmailInput acctEmail,
    fillX pPasswordInput acctPassword,
    clickX pFormSubmit,
    clickX "html/body/div[2]/main/div/div[3]/div/div[2]/button[3]",
    clickX "html/body/div[3]/div/div/div[2]",
    assertTextVis "Company Creation Successful" 1000]⟩

/-- TC017_UI_responsiveness_and_theme_toggling.py. -/
def tc017 : Scenario :=
  ⟨"TC017",
   [clickX "html/body/div[2]/header/div/button",
    clickX "html/body/div[2]/header/div/button",
    clickX "html/body/div[2]/header/div/button",
    clickX "html/body/div[2]/header/div/button",
    assertTextVis "Replay.ai" 30000,
    assertTextVis "Review your performance like game film" 30000,
    assertTextVis "The elite platform for professionals to record, review, and analyze performance with AI-powered insights." 30000,
    assertTextVis "Start Free Session" 30000,
    assertTextVis "Simulate real-world interview scenarios. Record your audio and video to analyze body language, tone, and content quality." 30000,
    assertTextVis "Review your sessions like game film. Tag important moments, add notes, and track your progress across multiple sessions." 30000,
    assertTextVis "Get instant feedback on your speaking pace, filler word usage, and content clarity powered by advanced speech analysis." 30000,
    assertTextVis "Replay.ai© 2026 Replay.ai. All rights reserved." 30000]⟩

/-- The whole test suite, one `Scenario` per script file. -/
def suite : List Scenario :=
  [tc001, tc004, tc005, tc010, tc011, tc012, tc015, tc016, tc017]

/-- The terminal text-visibility assertions of a scenario, as
(text, timeout) pairs, in program order. -/
def Scenario.assertTimeouts (s : Scenario) : List (String × Nat) :=
  s.uses.filterMap fun u =>
    match u.kind, u.strategies with
    | UseKind.visibleAssert, [Strategy.textEq t] => some (t, u.timeoutMs)
    | _, _ => none

/-- Kinds of exceptions that can escape an awaited primitive of a script:
`AssertionError`, a Playwright `TimeoutError`, a Playwright `async_api.Error`
(the kind caught by the load-state waits), or any other unexpected error. -/
inductive ErrKind
  | assertionError
  | timeoutError
  | apiError
  | unexpected
deriving DecidableEq, Repr

/-- An oracle deciding the outcome of each awaited primitive of `run_test`:
`none` means the await returns normally, `some e` means it raises `e`.
`loadWait` is the outcome of the `page.wait_for_load_state` call inside the
prologue `try`, and `body` is the first fault (if any) of the remaining step
and assertion sequence. -/
structure Oracle where
  pwStart : Option ErrKind
  launch : Option ErrKind
  newContext : Option ErrKind
  newPage : Option ErrKind
  gotoUrl : Option ErrKind
  loadWait : Option ErrKind
  body : Option ErrKind
deriving DecidableEq, Repr

/-- The `try: await page.wait_for_load_state(...) except async_api.Error:
pass` block of every script: an `async_api.Error` is caught and discarded,
any other exception propagates. -/
def swallowApi (o : Option ErrKind) : Option ErrKind :=
  match o with
  | some ErrKind.apiError => none
  | x => x

/-- The `except AssertionError: raise AssertionError(message)` wrapper that
TC004, TC005, TC011, TC012 and TC016 put around their terminal assertion:
an `AssertionError` is re-raised (with a new message) and every other
outcome passes through unchanged. -/
def reRaiseAssert (o : Option ErrKind) : Option ErrKind :=
  match o with
  | some ErrKind.assertionError => some ErrKind.assertionError
  | x => x

/-- The trace of one `run_test` call: the exception (if any) escaping the
function, which handles were created, and how many times each handle was
closed by the `finally` block. -/
structure RunTrace where
  result : Option ErrKind
  ctxCreated : Bool
  browserCreated : Bool
  pwCreated : Bool
  ctxClosed : Nat
  browserClosed : Nat
  pwClosed : Nat
deriving DecidableEq, Repr

/-- The shared `try`/`finally` skeleton of every script's `run_test`:
`pw = await async_playwright().start()`, `browser = await pw.chromium.launch`,
`context = await browser.new_context()`, `page = await context.new_page()`,
`await page.goto(...)`, the swallowed load-state wait, then the step and
assertion body; the `finally` block closes `context`, `browser` and `pw`,
each exactly when its variable is no longer `None`.  The oracle decides the
outcome of every awaited primitive. -/
def runScript (ω : Oracle) : RunTrace :=
  match ω.pwStart with
  | some e => ⟨some e, false, false, false, 0, 0, 0⟩
  | none =>
    match ω.launch with
    | some e => ⟨some e, false, false, true, 0, 0, 1⟩
    | none =>
      match ω.newContext with
      | some e => ⟨some e, false, true, true, 0, 1, 1⟩
      | none =>
        let bodyFault : Option ErrKind :=
          match ω.newPage with
          | some e => some e
          | none =>
            match ω.gotoUrl with
            | some e => some e
            | none =>
              match swallowApi ω.loadWait with
              | some e => some e
              | none => ω.body
        ⟨bodyFault, true, true, true, 1, 1, 1⟩

/-- An oracle whose prologue succeeds and whose body has the given fault. -/
def okOracle (b : Option ErrKind) : Oracle :=
  ⟨none, none, none, none, none, none, b⟩

/-- Sequential execution of the body steps of a script, starting at step
index `k`: each step is awaited in listed order; the first step whose await
raises stops execution.  Returns the list of steps that were started and
the failing (index, error), if any.  `φ i` is the outcome of step `i`. -/
def runStepsFrom (φ : Nat → Option ErrKind) :
    List ElemUse → Nat → List ElemUse × Option (Nat × ErrKind)
  | [], _ => ([], none)
  | u :: rest, k =>
    match φ k with
    | some e => ([u], some (k, e))
    | none =>
      let r := runStepsFrom φ rest (k + 1)
      (u :: r.1, r.2)

/-- Execution of a script's step list from the beginning. -/
def runSteps (φ : Nat → Option ErrKind) (steps : List ElemUse) :
    List ElemUse × Option (Nat × ErrKind) :=
  runStepsFrom φ steps 0

/-- Modelled from the spec: the polling loop of the external Playwright
`expect(...).to_be_visible(timeout=…)` call, which the repository only
invokes; per the Assertion Engine contract the predicate is polled from
time `0` up to the deadline and the first success is returned.
`firstHitFrom pred t fuel` scans times `t, t+1, …, t+fuel-1`. -/
def firstHitFrom (pred : Nat → Bool) (t : Nat) : Nat → Option Nat
  | 0 => none
  | fuel + 1 => if pred t then some t else firstHitFrom pred (t + 1) fuel

/-- Modelled from the spec: poll the visibility predicate at times
`0 … deadline`; `some t` is the first time the predicate held, `none` means
it never held within the deadline. -/
def pollVisible (pred : Nat → Bool) (deadline : Nat) : Option Nat :=
  firstHitFrom pred 0 (deadline + 1)

/-- Modelled from the spec: one `to_be_visible(timeout=deadline)` assertion:
on success it returns no error together with the observation time; when the
predicate never holds it raises `AssertionError` after exactly the deadline
has elapsed. -/
def assertionAttempt (pred : Nat → Bool) (deadline : Nat) :
    Option ErrKind × Nat :=
  match pollVisible pred deadline with
  | some t => (none, t)
  | none => (some ErrKind.assertionError, deadline)

/-- The terminal assertion block of a script: the `(text, timeout)`
assertions are awaited in order and the first failing one raises
`AssertionError`; `vis s t` says whether text `s` is visible at poll time
`t` of its own assertion. -/
def runAsserts (vis : String → Nat → Bool) :
    List (String × Nat) → Option ErrKind
  | [] => none
  | (s, d) :: rest =>
    match pollVisible (vis s) d with
    | some _ => runAsserts vis rest
    | none => some ErrKind.assertionError

/-- The page observations that drive the data-dependent part of TC015:
whether the denied-access text is in the page content after visiting User
B's session URL, the `h1` element count there, whether `Your Sessions`
becomes visible within its timeout after User B's login, and the count of
`Invalid login credentials` matches. -/
structure TC015Obs where
  deniedTextVisible : Bool
  h1Count : Nat
  yourSessionsVisible : Bool
  invalidCredsCount : Nat
deriving DecidableEq, Repr

/-- The message printed by the RLS check of TC015 (lines 85-91). -/
inductive RlsMsg
  | successDenied
  | warningMaybeAccessed
  | silent
deriving DecidableEq, Repr

/-- The RLS check of TC015, lines 85-91: if the page content shows a
not-found/error text, print a SUCCESS message; otherwise, if any `h1`
element exists, print a WARNING message; in every case continue without
raising. -/
def rlsCheck (o : TC015Obs) : RlsMsg × Option ErrKind :=
  if o.deniedTextVisible then (RlsMsg.successDenied, none)
  else if 0 < o.h1Count then (RlsMsg.warningMaybeAccessed, none)
  else (RlsMsg.silent, none)

/-- The final assertion block of TC015, lines 129-138: expect
`Your Sessions` visible; on `AssertionError`, both except branches
(whatever the `Invalid login credentials` count) re-raise an
`AssertionError` with a diagnostic message. -/
def tc015Final (o : TC015Obs) : Option ErrKind :=
  if o.yourSessionsVisible then none else some ErrKind.assertionError

/-- The fault of TC015's body after the login steps: the RLS check runs
first (and never raises), then the final assertion block decides the
outcome. -/
def tc015Body (o : TC015Obs) : Option ErrKind :=
  match (rlsCheck o).2 with
  | some e => some e
  | none => tc015Final o

/-- A successful poll scan found a time inside the scanned window at which
the predicate held. -/
theorem firstHitFrom_some {pred : Nat → Bool} :
    ∀ {fuel t u : Nat}, firstHitFrom pred t fuel = some u →
      t ≤ u ∧ u < t + fuel ∧ pred u = true := by
  intro fuel
  induction fuel with
  | zero => intro t u h; simp [firstHitFrom] at h
  | succ n ih =>
    intro t u h
    by_cases hp : pred t
    · simp [firstHitFrom, hp] at h
      subst h
      exact ⟨le_rfl, by omega, hp⟩
    · simp [firstHitFrom, hp] at h
      rcases ih h with ⟨h1, h2, h3⟩
      exact ⟨by omega, by omega, h3⟩

/-- A poll scan over a window where the predicate is everywhere false
returns no hit. -/
theorem firstHitFrom_none_of {pred : Nat → Bool} :
    ∀ {fuel t : Nat}, (∀ u, t ≤ u → u < t + fuel → pred u = false) →
      firstHitFrom pred t fuel = none := by
  intro fuel
  induction fuel with
  | zero => intro t _; rfl
  | succ n ih =>
    intro t h
    have hp : pred t = false := h t le_rfl (by omega)
    simp [firstHitFrom, hp]
    exact ih fun u hu hu2 => h u (by omega) (by omega)

/-- A successful visibility poll observed the predicate within the
deadline. -/
theorem pollVisible_some {pred : Nat → Bool} {d t : Nat}
    (h : pollVisible pred d = some t) : t ≤ d ∧ pred t = true := by
  rcases firstHitFrom_some h with ⟨_, h2, h3⟩
  exact ⟨by omega, h3⟩

/-- A predicate that never holds up to the deadline is never observed by
the poll. -/
theorem pollVisible_none_of {pred : Nat → Bool} {d : Nat}
    (h : ∀ u, u ≤ d → pred u = false) : pollVisible pred d = none :=
  firstHitFrom_none_of fun u _ hu2 => h u (by omega)

/-- When the terminal assertion block of a script returns no error, every
listed assertion text was observed visible within its own timeout. -/
theorem runAsserts_surfaces {vis : String → Nat → Bool} :
    ∀ {L : List (String × Nat)}, runAsserts vis L = none →
      ∀ p ∈ L, ∃ t, t ≤ p.2 ∧ vis p.1 t = true := by
  intro L
  induction L with
  | nil => intro _ p hp; simp at hp
  | cons q rest ih =>
    intro h p hp
    rcases q with ⟨s, d⟩
    rcases hm : pollVisible (vis s) d with _ | t
    · simp [runAsserts, hm] at h
    · simp only [runAsserts, hm] at h
      rcases List.mem_cons.mp hp with hp | hp
      · subst hp
        rcases pollVisible_some hm with ⟨ht, hv⟩
        exact ⟨t, ht, hv⟩
      · exact ih h p hp

/-- Sequential step execution from offset `k`: when step `i` (absolute
index) is the first to fault, exactly the first `i + 1` listed steps are
started, in listed order, and the reported fault carries index `i`. -/
theorem runStepsFrom_spec (φ : Nat → Option ErrKind) :
    ∀ (steps : List ElemUse) (k i : Nat) (e : ErrKind),
      i < steps.length → φ (k + i) = some e →
      (∀ j, j < i → φ (k + j) = none) →
      (runStepsFrom φ steps k).2 = some (k + i, e) ∧
      (runStepsFrom φ steps k).1 = steps.take (i + 1) := by
  intro steps
  induction steps with
  | nil => intro k i e hi _ _; simp at hi
  | cons u rest ih =>
    intro k i e hi hf hprev
    cases i with
    | zero =>
      have h0 : φ k = some e := by simpa using hf
      simp [runStepsFrom, h0]
    | succ j =>
      have h0 : φ k = none := by simpa using hprev 0 (Nat.succ_pos j)
      have hf' : φ (k + 1 + j) = some e := by
        have hkj : k + 1 + j = k + (j + 1) := by omega
        rw [hkj]; exact hf
      have hprev' : ∀ j', j' < j → φ (k + 1 + j') = none := by
        intro j' hj'
        have hkj : k + 1 + j' = k + (j' + 1) := by omega
        rw [hkj]; exact hprev (j' + 1) (by omega)
      have hi' : j < rest.length := by
        have := hi
        simp only [List.length_cons] at this
        omega
      have hrec := ih (k + 1) j e hi' hf' hprev'
      have hidx : k + 1 + j = k + (j + 1) := by omega
      constructor
      · simp only [runStepsFrom, h0]
        rw [← hidx]
        exact hrec.1
      · simp only [runStepsFrom, h0, List.take_succ_cons]
        exact congrArg (fun l => u :: l) hrec.2

/-- Claim C1: for every run of a scenario script — whatever the outcome of
each awaited primitive of the prologue, of the steps and of the assertions
(normal completion, assertion failure, action timeout, or any unexpected
error) — the `finally` block closes each of the execution context, the
browser and the playwright handle exactly once when it was created during
the run, and never closes a handle that was not created. -/
theorem c1_resources_released_exactly_once (ω : Oracle) :
    (runScript ω).ctxClosed = (if (runScript ω).ctxCreated then 1 else 0) ∧
    (runScript ω).browserClosed =
      (if (runScript ω).browserCreated then 1 else 0) ∧
    (runScript ω).pwClosed = (if (runScript ω).pwCreated then 1 else 0) := by
  rcases ω with ⟨ps, la, nc, np, gt, lw, bd⟩
  cases ps <;> cases la <;> cases nc <;> simp [runScript]

/-- Oracle for a run in which the load-state wait raises an
`async_api.Error` and everything else succeeds. -/
def c2Oracle : Oracle :=
  ⟨none, none, none, none, none, some ErrKind.apiError, none⟩

/-- Claim C2 counterexample: in the run where the prologue
`page.wait_for_load_state` raises an `async_api.Error` and every other
primitive succeeds, the error is caught by the `except async_api.Error:
pass` block and discarded — `run_test` returns with no error surfaced, so
an error raised during the run was silently discarded. -/
theorem c2_counterexample :
    c2Oracle.loadWait = some ErrKind.apiError ∧
    (runScript c2Oracle).result = none := by
  exact ⟨rfl, rfl⟩

/-- Claim C2 (amended): every fault raised at a step or terminal-assertion
boundary of the body is surfaced as the result of `run_test` (the
`except AssertionError` wrappers re-raise and never discard a fault);
however `async_api.Error` faults of the prologue load-state waits are
deliberately discarded by their `except … pass` blocks. -/
theorem c2_amended_body_faults_surface (ω : Oracle) (e : ErrKind)
    (hb : ω.body = some e) :
    (runScript ω).result ≠ none ∧
    (∀ f : ErrKind, reRaiseAssert (some f) ≠ none) := by
  rcases ω with ⟨ps, la, nc, np, gt, lw, bd⟩
  subst hb
  refine ⟨?_, fun f => by cases f <;> simp [reRaiseAssert]⟩
  cases ps <;> cases la <;> cases nc <;> cases np <;> cases gt <;>
    rcases lw with _ | f <;> try cases f
  all_goals simp [runScript, swallowApi]

/-- Witness for the amended claim C2 at a concrete oracle whose body
raises an assertion failure. -/
theorem c2_amended_witness :
    (runScript (okOracle (some ErrKind.assertionError))).result ≠ none ∧
    (∀ f : ErrKind, reRaiseAssert (some f) ≠ none) :=
  c2_amended_body_faults_surface (okOracle (some ErrKind.assertionError))
    ErrKind.assertionError rfl

/-- Terminal outcome of TC005: the wrapped assertion on the failure
message; `vis` says whether `Recording session failed to start` became
visible within the assertion timeout. -/
def tc005Terminal (vis : Bool) : Option ErrKind :=
  reRaiseAssert (if vis then none else some ErrKind.assertionError)

/-- Claim C3: the trading-session scenario TC005 ends with a terminal
assertion that the failure message `Recording session failed to start` is
visible — so a scenario of the suite does assert a failure message as the
success path of session creation: its terminal step is exactly that
text-visibility assertion, and the scenario completes without error
precisely when the failure message is visible. -/
theorem c3_tc005_success_condition_is_failure_message :
    tc005.uses.getLast? =
      some (assertTextVis "Recording session failed to start" 1000) ∧
    tc005 ∈ suite ∧
    (∀ vis : Bool, tc005Terminal vis = none ↔ vis = true) := by
  refine ⟨by decide, by decide, fun vis => ?_⟩
  cases vis <;> simp [tc005Terminal, reRaiseAssert]

/-- Witness for claim C3: with the failure message visible, TC005's
terminal assertion raises nothing. -/
theorem c3_witness : tc005Terminal true = none :=
  (c3_tc005_success_condition_is_failure_message.2.2 true).mpr rfl

/-- Claim C4: a terminal visibility assertion whose predicate never becomes
true within its deadline raises `AssertionError` after exactly the deadline
— never a pass, never waiting past the deadline — and the
`except AssertionError: raise AssertionError(…)` wrapper used by the
scripts keeps the outcome an `AssertionError`; any successful poll observes
its predicate within the deadline; TC004's terminal assertion is the text
`Recording Started Successfully` with a 30000 ms deadline. -/
theorem c4_assertion_timeout_never_passes (pred : Nat → Bool) (d : Nat)
    (h : ∀ t, t ≤ d → pred t = false) :
    reRaiseAssert (assertionAttempt pred d).1 = some ErrKind.assertionError ∧
    (assertionAttempt pred d).2 = d ∧
    (∀ (q : Nat → Bool) (t : Nat), pollVisible q d = some t → t ≤ d) ∧
    tc004.assertTimeouts = [("Recording Started Successfully", 30000)] := by
  have hnone : pollVisible pred d = none := pollVisible_none_of h
  refine ⟨?_, ?_, ?_, by decide⟩
  · simp [assertionAttempt, hnone, reRaiseAssert]
  · simp [assertionAttempt, hnone]
  · intro q t ht
    exact (pollVisible_some ht).1

/-- Witness for claim C4 at the never-true predicate and deadline 5. -/
theorem c4_witness :
    reRaiseAssert (assertionAttempt (fun _ => false) 5).1 =
      some ErrKind.assertionError ∧
    (assertionAttempt (fun _ => false) 5).2 = 5 ∧
    (∀ (q : Nat → Bool) (t : Nat), pollVisible q 5 = some t → t ≤ 5) ∧
    tc004.assertTimeouts = [("Recording Started Successfully", 30000)] :=
  c4_assertion_timeout_never_passes (fun _ => false) 5 (fun _ _ => rfl)

/-- Step-outcome oracle that fails exactly at step index 2. -/
def c5Oracle : Nat → Option ErrKind :=
  fun n => if n < 2 then none else
    if n = 2 then some ErrKind.timeoutError else none

/-- Claim C5: within a single scenario the steps run strictly in listed
order: when step `i` is the first whose await faults, exactly the listed
steps up to and including `i` are started (the executed list is the length
`i + 1` front of the step list, so nothing after the failing step
executes), the body fault carries the failing index, and the whole
`run_test` with that body fault ends with that error, not a pass. -/
theorem c5_first_failure_stops_run (steps : List ElemUse)
    (φ : Nat → Option ErrKind) (i : Nat) (e : ErrKind)
    (hi : i < steps.length) (hf : φ i = some e)
    (hprev : ∀ j, j < i → φ j = none) :
    (runSteps φ steps).2 = some (i, e) ∧
    (runSteps φ steps).1 = steps.take (i + 1) ∧
    (runScript (okOracle (((runSteps φ steps).2).map Prod.snd))).result =
      some e := by
  have hs := runStepsFrom_spec φ steps 0 i e hi (by simpa using hf)
    (fun j hj => by simpa using hprev j hj)
  have h2 : (runSteps φ steps).2 = some (i, e) := by
    simpa [runSteps] using hs.1
  refine ⟨h2, by simpa [runSteps] using hs.2, ?_⟩
  rw [h2]
  rfl

/-- Witness for claim C5: running TC001's steps with a fault at index 2
starts exactly the first three listed interactions and the run ends with
the timeout error. -/
theorem c5_witness :
    (runSteps c5Oracle tc001.uses).2 = some (2, ErrKind.timeoutError) ∧
    (runSteps c5Oracle tc001.uses).1 = tc001.uses.take (2 + 1) ∧
    (runScript (okOracle
        (((runSteps c5Oracle tc001.uses).2).map Prod.snd))).result =
      some ErrKind.timeoutError :=
  c5_first_failure_stops_run tc001.uses c5Oracle 2 ErrKind.timeoutError
    (by decide) rfl (fun j hj => by simp [c5Oracle, hj])

/-- Whether a descriptor uses structural strategies only as a fallback:
every structural strategy must be preceded by a semantic one, so a
descriptor whose first strategy is structural does not prefer semantic
attributes. -/
def structuralOnlyFallback : List Strategy → Bool
  | [] => true
  | s :: rest =>
    if s.isSemantic then true
    else if s.isStructural then false
    else structuralOnlyFallback rest

/-- Whether a descriptor consists of exactly one absolute XPath strategy. -/
def isSingleXPath : List Strategy → Bool
  | [Strategy.xpath _] => true
  | _ => false

/-- Whether a descriptor consists of exactly one visible-text strategy. -/
def isSingleText : List Strategy → Bool
  | [Strategy.textEq _] => true
  | _ => false

/-- Claim C6 counterexample: the first element lookup of TC001 — and with
it the suite-wide claim — uses a lone absolute structural XPath with no
semantic strategy before it, so semantic attributes are not preferred
before structural position. -/
theorem c6_counterexample :
    clickX "html/body/div[2]/main/div/div[2]/div[2]/a/button" ∈ tc001.uses ∧
    (clickX "html/body/div[2]/main/div/div[2]/div[2]/a/button").strategies =
      [Strategy.xpath "html/body/div[2]/main/div/div[2]/div[2]/a/button"] ∧
    structuralOnlyFallback
      (clickX "html/body/div[2]/main/div/div[2]/div[2]/a/button").strategies =
      false ∧
    ¬ (∀ s ∈ suite, ∀ u ∈ s.uses,
        structuralOnlyFallback u.strategies = true) := by
  refine ⟨by decide, by decide, by decide, fun hall => ?_⟩
  exact absurd
    (hall tc001 (by decide)
      (clickX "html/body/div[2]/main/div/div[2]/div[2]/a/button") (by decide))
    (by decide)

/-- Claim C6 (amended): element lookups never rank semantic attributes
before structural position — every click/fill lookup in every scenario uses
exactly one absolute structural XPath strategy, and semantic visible-text
strategies appear only in the terminal visibility assertions. -/
theorem c6_amended_actions_use_structural_xpath_only :
    ∀ s ∈ suite, ∀ u ∈ s.uses,
      (u.kind.isAct = true → isSingleXPath u.strategies = true) ∧
      (u.kind.isVis = true → isSingleText u.strategies = true) := by
  decide

/-- Witness for the amended claim C6 at TC004's first lookup. -/
theorem c6_amended_witness :
    isSingleXPath (clickX pSignInHeader).strategies = true :=
  (c6_amended_actions_use_structural_xpath_only tc004 (by decide)
    (clickX pSignInHeader) (by decide)).1 rfl

/-- Claim C7: TC001's terminal assertion block asserts the signed-up
account email text and the `Sign Out` affordance (each with a 30000 ms
timeout), the asserted email is exactly the one filled into the signup
form, and any run of the block that returns no error observed both texts
visible within that timeout. -/
theorem c7_tc001_email_and_signout (vis : String → Nat → Bool)
    (h : runAsserts vis tc001.assertTimeouts = none) :
    (acctEmail, 30000) ∈ tc001.assertTimeouts ∧
    ("Sign Out", 30000) ∈ tc001.assertTimeouts ∧
    fillX pEmailInput acctEmail ∈ tc001.uses ∧
    (∃ t, t ≤ 30000 ∧ vis acctEmail t = true) ∧
    (∃ t, t ≤ 30000 ∧ vis "Sign Out" t = true) := by
  have h1 : (acctEmail, (30000 : Nat)) ∈ tc001.assertTimeouts := by decide
  have h2 : (("Sign Out" : String), (30000 : Nat)) ∈ tc001.assertTimeouts := by
    decide
  exact ⟨h1, h2, by decide,
    runAsserts_surfaces h _ h1, runAsserts_surfaces h _ h2⟩

/-- Witness for claim C7 at the everywhere-true visibility oracle. -/
theorem c7_witness :
    (acctEmail, 30000) ∈ tc001.assertTimeouts ∧
    ("Sign Out", 30000) ∈ tc001.assertTimeouts ∧
    fillX pEmailInput acctEmail ∈ tc001.uses ∧
    (∃ t, t ≤ 30000 ∧ (fun (_ : String) (_ : Nat) => true) acctEmail t = true) ∧
    (∃ t, t ≤ 30000 ∧ (fun (_ : String) (_ : Nat) => true) "Sign Out" t = true) :=
  c7_tc001_email_and_signout (fun _ _ => true) (by decide)

/-- Claim C8: every element-targeted action (every click and fill; the
dropdown selections are clicks) in every scenario of the suite is
immediately preceded by the explicit fixed `wait_for_timeout(3000)`
micro-wait on its own source line. -/
theorem c8_every_action_prewaited :
    ∀ s ∈ suite, ∀ u ∈ s.uses, u.kind.isAct = true → u.preWaitMs = 3000 := by
  decide

/-- Witness for claim C8 at TC004's first click. -/
theorem c8_witness : (clickX pSignInHeader).preWaitMs = 3000 :=
  c8_every_action_prewaited tc004 (by decide) (clickX pSignInHeader)
    (by decide) rfl

/-- Claim C9 counterexample: TC015's RLS existence check locates `h1` and
consumes the whole match set with `.count()`, not the first match, so not
every locator in every scenario acts on the first match in document
order. -/
theorem c9_counterexample :
    countQuery (Strategy.css "h1") ∈ tc015.uses ∧
    (countQuery (Strategy.css "h1")).sel = Selection.countAll ∧
    ¬ (∀ s ∈ suite, ∀ u ∈ s.uses, u.sel = Selection.first) := by
  refine ⟨by decide, rfl, fun hall => ?_⟩
  exact absurd
    (hall tc015 (by decide) (countQuery (Strategy.css "h1")) (by decide))
    (by decide)

/-- Claim C9 (amended): every locator backing an element action or a
visibility assertion selects the first match in document order
(`.nth(0)`/`.first`); the only whole-match-set usages in the suite are
count-based existence checks, and those occur only in TC015. -/
theorem c9_amended_first_match :
    ∀ s ∈ suite, ∀ u ∈ s.uses,
      (u.kind.isCount = false → u.sel = Selection.first) ∧
      (u.sel = Selection.countAll →
        u.kind.isCount = true ∧ s.name = "TC015") := by
  decide

/-- Witness for the amended claim C9 at TC004's first click. -/
theorem c9_amended_witness : (clickX pSignInHeader).sel = Selection.first :=
  (c9_amended_first_match tc004 (by decide) (clickX pSignInHeader)
    (by decide)).1 rfl

/-- Claim C10: in TC015, when the denied-access text is absent and User B's
session content is visible (some `h1` exists — the RLS violation case), the
script only prints the WARNING and raises nothing; the rest of the body is
unaffected, so the outcome is decided solely by the final login assertion,
and when `Your Sessions` becomes visible the whole `run_test` still ends
with no error. -/
theorem c10_rls_violation_only_warns (o : TC015Obs)
    (hden : o.deniedTextVisible = false) (hh1 : 0 < o.h1Count) :
    (rlsCheck o).1 = RlsMsg.warningMaybeAccessed ∧
    (rlsCheck o).2 = none ∧
    tc015Body o = tc015Final o ∧
    (o.yourSessionsVisible = true →
      (runScript (okOracle (tc015Body o))).result = none) := by
  have hc : rlsCheck o = (RlsMsg.warningMaybeAccessed, none) := by
    simp [rlsCheck, hden, hh1]
  refine ⟨by rw [hc], by rw [hc], by simp [tc015Body, hc], fun hv => ?_⟩
  have hb : tc015Body o = none := by
    simp [tc015Body, hc, tc015Final, hv]
  rw [hb]
  rfl

/-- Witness for claim C10 at the concrete observation where User A sees
User B's session yet the run still ends with no error. -/
theorem c10_witness :
    (rlsCheck ⟨false, 1, true, 0⟩).1 = RlsMsg.warningMaybeAccessed ∧
    (runScript (okOracle (tc015Body ⟨false, 1, true, 0⟩))).result = none :=
  ⟨(c10_rls_violation_only_warns ⟨false, 1, true, 0⟩ rfl (by decide)).1,
   (c10_rls_violation_only_warns ⟨false, 1, true, 0⟩ rfl (by decide)).2.2.2 rfl⟩

end InterviewReplay
